import Mathlib

/-!
# Verification of `react-aria-components` `Menu.tsx`

A shallow embedding of the rendering logic of `Menu.tsx`
(`MenuTrigger`, `Menu`, `MenuInner`, `MenuSection`, `MenuItemInner`).

The file embeds the pure rendering decisions of the component layer:

* a realized collection is a list of top-level nodes; sections carry
  their child nodes (the code only ever reads two levels: top-level
  nodes, and the children of a section via
  `state.collection.getChildren(section.key)`);
* rendering that can `throw` is embedded as `Except String`, carrying
  the thrown error message;
* the external interaction hooks (`useMenuItem`, `useFocusRing`,
  `useTreeState`'s selection manager) are opaque inputs: the per-key
  interaction flags and the focus-ring flag are parameters, so every
  theorem quantifies over all possible hook outputs;
* JSX output is embedded as a small element datatype mirroring the
  exact shapes the component produces.
-/

set_option autoImplicit false

namespace ReactAriaMenu

/-- JS truthiness of an optional string prop: `undefined` and the empty
string are falsy, every other string is truthy.  This is the semantics
of the source's `props.href ? 'a' : 'div'` test. -/
def strTruthy : Option String → Bool
  | none => false
  | some s => !(s == "")

/-- The props of a collection node that the `Menu.tsx` rendering layer
reads.  `href` embeds the optional link target from `LinkDOMProps`. -/
structure NodeProps where
  href : Option String := none
  deriving Repr, DecidableEq

/-- One realized collection node (`Node<T>` from react-stately) as read
by this layer: its `type` tag, its `key`, and its props. -/
structure Node where
  type : String
  key : Nat
  props : NodeProps := {}
  deriving Repr, DecidableEq

/-- A top-level entry of the realized collection together with its
child nodes.  `children` embeds
`state.collection.getChildren!(node.key)`; it is only ever read when
`node.type` is `"section"`. -/
structure TopNode where
  node : Node
  children : List Node := []
  deriving Repr, DecidableEq

/-- The per-item interaction flags returned by the external
`useMenuItem` hook (spread into the render as `...states`). -/
structure ItemStates where
  isDisabled : Bool := false
  isFocused : Bool := false
  isPressed : Bool := false
  isSelected : Bool := false
  deriving Repr, DecidableEq

/-- The outputs of the external hooks that `Menu.tsx` consumes:
`useTreeState`'s selection manager fields, the per-key `useMenuItem`
flags, and the per-key `useFocusRing` flag.  All theorems quantify over
these, treating the hooks as opaque collaborators. -/
structure HookData where
  selectionMode : String := "none"
  selectionBehavior : String := "toggle"
  itemStates : Nat → ItemStates := fun _ => {}
  focusVisible : Nat → Bool := fun _ => false

/-- The tree state as read by this layer: the realized collection plus
the selection manager fields. -/
structure TreeState where
  collection : List TopNode
  selectionMode : String
  selectionBehavior : String
  itemStates : Nat → ItemStates

/-- Modelled from the spec: `useTreeState` (react-stately, not under
`src/`) "builds full interaction state from the realized collection" —
the resulting `state.collection` is the collection that was passed in,
and the selection manager carries the selection mode and behavior. -/
def useTreeState (collection : List TopNode) (h : HookData) : TreeState :=
  { collection := collection
    selectionMode := h.selectionMode
    selectionBehavior := h.selectionBehavior
    itemStates := h.itemStates }

/-- The values object passed to the `useRenderProps` render-prop
callback by `MenuItemInner`. -/
structure RenderValues where
  isDisabled : Bool
  isFocused : Bool
  isHovered : Bool
  isPressed : Bool
  isSelected : Bool
  isFocusVisible : Bool
  selectionMode : String
  selectionBehavior : String
  deriving Repr, DecidableEq

/-- The element rendered by `MenuItemInner`: its tag name and the data
attributes it sets.  A `none` attribute embeds JS `undefined`, i.e. the
attribute is absent from the DOM. -/
structure MenuItemRendered where
  elementType : String
  dataDisabled : Option Bool
  dataHovered : Option Bool
  dataFocused : Option Bool
  dataFocusVisible : Option Bool
  dataPressed : Option Bool
  dataSelected : Option Bool
  dataSelectionMode : Option String
  values : RenderValues
  deriving Repr, DecidableEq

/-- JS `b || undefined`: `true` stays `true`, `false` becomes
`undefined` (the attribute is omitted entirely). -/
def orUndefined (b : Bool) : Option Bool :=
  if b then some true else none

/-- `MenuItemInner`: fetches the per-item flags from the tree state
(`useMenuItem({key: item.key}, state, ref)`), merges the focus ring,
builds the render-prop values (with `isHovered: states.isFocused`),
picks `'a'` or `'div'` from `props.href`, and sets the data
attributes. -/
def MenuItemInner (state : TreeState) (fv : Nat → Bool) (item : Node) :
    MenuItemRendered :=
  let states := state.itemStates item.key
  let isFocusVisible := fv item.key
  { elementType := if strTruthy item.props.href then "a" else "div"
    dataDisabled := orUndefined states.isDisabled
    dataHovered := orUndefined states.isFocused
    dataFocused := orUndefined states.isFocused
    dataFocusVisible := orUndefined isFocusVisible
    dataPressed := orUndefined states.isPressed
    dataSelected := orUndefined states.isSelected
    dataSelectionMode :=
      if state.selectionMode == "none" then none else some state.selectionMode
    values :=
      { isDisabled := states.isDisabled
        isFocused := states.isFocused
        isHovered := states.isFocused
        isPressed := states.isPressed
        isSelected := states.isSelected
        isFocusVisible := isFocusVisible
        selectionMode := state.selectionMode
        selectionBehavior := state.selectionBehavior } }

/-- A realized menu item element: the node it was constructed from and
what `MenuItemInner` rendered for it. -/
structure ItemElement where
  node : Node
  rendered : MenuItemRendered
  deriving Repr, DecidableEq

/-- An element inside a `MenuSection`: either the `Header` or a
realized menu item. -/
inductive SectionChild where
  | headerEl (key : Nat)
  | itemEl (it : ItemElement)
  deriving Repr, DecidableEq

/-- A top-level element of the menu body: a section, a separator, or a
realized menu item. -/
inductive TopElement where
  | sectionEl (children : List SectionChild)
  | separatorEl
  | itemEl (it : ItemElement)
  deriving Repr, DecidableEq

/-- An element of the `Menu` component's output fragment: the single
menu container or the server-render portal placeholder. -/
inductive Element where
  | menuContainer (children : List TopElement)
  | portalEl
  deriving Repr, DecidableEq

/-- Modelled from the spec: `useCachedChildren` (from `./Collection`,
not under `src/`) renders `children(item)` for every entry of `items`,
"dispatching each node to a renderer", producing a rendering for every
node in the collection's order; a thrown error propagates. -/
def useCachedChildren {α β : Type} (f : α → Except String β) :
    List α → Except String (List β)
  | [] => .ok []
  | x :: xs =>
    match f x with
    | .error e => .error e
    | .ok y =>
      match useCachedChildren f xs with
      | .error e => .error e
      | .ok ys => .ok (y :: ys)

/-- The `children` renderer of `MenuSection`: `header` renders the
`Header`, `item` renders `MenuItemInner`, anything else throws
`'Unsupported element type in Section: ' + item.type`. -/
def sectionChild (state : TreeState) (fv : Nat → Bool) (item : Node) :
    Except String SectionChild :=
  if item.type == "header" then
    .ok (.headerEl item.key)
  else if item.type == "item" then
    .ok (.itemEl ⟨item, MenuItemInner state fv item⟩)
  else
    .error ("Unsupported element type in Section: " ++ item.type)

/-- `MenuSection`: renders the children obtained from
`state.collection.getChildren!(section.key)` through `sectionChild`,
wrapped in a `section` group element. -/
def MenuSection (state : TreeState) (fv : Nat → Bool) (t : TopNode) :
    Except String TopElement :=
  match useCachedChildren (sectionChild state fv) t.children with
  | .error e => .error e
  | .ok cs => .ok (.sectionEl cs)

/-- The `children` renderer of `MenuInner`: dispatch on the node's
`type` — `section` renders `MenuSection`, `separator` renders
`Separator`, `item` renders `MenuItemInner`, anything else throws
`'Unsupported node type in Menu: ' + item.type`. -/
def menuInnerChild (state : TreeState) (fv : Nat → Bool) (t : TopNode) :
    Except String TopElement :=
  if t.node.type == "section" then
    MenuSection state fv t
  else if t.node.type == "separator" then
    .ok .separatorEl
  else if t.node.type == "item" then
    .ok (.itemEl ⟨t.node, MenuItemInner state fv t.node⟩)
  else
    .error ("Unsupported node type in Menu: " ++ t.node.type)

/-- `MenuInner`: builds the tree state from the realized collection and
renders every node of `state.collection` into the single menu container
`div`. -/
def MenuInner (h : HookData) (collection : List TopNode) :
    Except String Element :=
  let state := useTreeState collection h
  match useCachedChildren (menuInnerChild state h.focusVisible)
      state.collection with
  | .error e => .error e
  | .ok tops => .ok (.menuContainer tops)

/-- Modelled from the spec: `useCollection` (from `./Collection`, not
under `src/`) yields "an optional server-render portal placeholder"
alongside the collection; the `Menu` fragment ends with `{portal}`. -/
def portalOut (portal : Bool) : List Element :=
  if portal then [Element.portalEl] else []

/-- `Menu`: renders `MenuInner` only when `collection.size > 0`,
followed by the portal placeholder
(`{collection.size > 0 && <MenuInner .../>}{portal}`). -/
def Menu (h : HookData) (portal : Bool) (collection : List TopNode) :
    Except String (List Element) :=
  if collection.length > 0 then
    match MenuInner h collection with
    | .error e => .error e
    | .ok m => .ok (m :: portalOut portal)
  else
    .ok (portalOut portal)

/-- Is this output element the menu container? -/
def Element.isContainer : Element → Bool
  | .menuContainer _ => true
  | .portalEl => false

/-- The nodes for which a `MenuItemInner` rendering occurs inside a
section. -/
def SectionChild.itemNodes : SectionChild → List Node
  | .headerEl _ => []
  | .itemEl it => [it.node]

/-- The nodes for which a `MenuItemInner` rendering occurs under a
top-level element. -/
def TopElement.itemNodes : TopElement → List Node
  | .sectionEl cs => cs.flatMap SectionChild.itemNodes
  | .separatorEl => []
  | .itemEl it => [it.node]

/-- The nodes for which a `MenuItemInner` rendering occurs in an output
element. -/
def Element.itemNodes : Element → List Node
  | .menuContainer ts => ts.flatMap TopElement.itemNodes
  | .portalEl => []

/-- Membership of a node in the realized collection as the tree state
exposes it: either a top-level node, or a child of a top-level section
(reachable through `getChildren`). -/
def inCollection (c : List TopNode) (n : Node) : Prop :=
  (∃ t ∈ c, t.node = n) ∨
    (∃ t ∈ c, t.node.type = "section" ∧ n ∈ t.children)

instance (c : List TopNode) (n : Node) : Decidable (inCollection c n) := by
  unfold inCollection; infer_instance

/-- The `onResize` callback of `MenuTrigger`: when the trigger ref is
attached (`ref.current` truthy), publish the trigger's current
`offsetWidth` with a `'px'` suffix; otherwise leave the previous state.
`refCurrent` is `none` when `ref.current` is `null`, and `some w` when
the trigger element is attached with `offsetWidth` `w`. -/
def onResize (refCurrent : Option Nat) (buttonWidth : Option String) :
    Option String :=
  match refCurrent with
  | some w => some (toString w ++ "px")
  | none => buttonWidth

/-- Modelled from the spec: `useResizeObserver` (from
`@react-aria/utils`, not under `src/`) invokes the `onResize` callback
once per resize event of the observed trigger element; the
`buttonWidth` state threads through the events in order, starting from
the initial `null`. -/
def processResizes (init : Option String) (events : List (Option Nat)) :
    Option String :=
  events.foldl (fun bw ev => onResize ev bw) init

/-- A node's props include a link target when `href` is configured with
a non-empty string — exactly the hrefs the source's truthiness test
`props.href ?` accepts (JS treats `undefined` and `""` as falsy). -/
def hasLinkTarget (p : NodeProps) : Prop :=
  ∃ s, p.href = some s ∧ s ≠ ""

instance (p : NodeProps) : Decidable (hasLinkTarget p) := by
  unfold hasLinkTarget
  cases p.href with
  | none => exact .isFalse (by simp)
  | some s => exact decidable_of_iff (s ≠ "") (by simp)

/-- A data attribute mirrors a boolean flag: it is present exactly when
the flag is true, and it never carries the value `false` (when the flag
is false the attribute is `undefined`, i.e. absent). -/
def mirrors (o : Option Bool) (b : Bool) : Prop :=
  (o.isSome ↔ b = true) ∧ o ≠ some false

/-! ## Concrete inputs used by the witnesses -/

/-- Hook outputs used by the witnesses: everything defaulted. -/
def wHook : HookData := {}

/-- A two-node collection (an item and a separator) used by the C1
witness. -/
def c1Collection : List TopNode :=
  [⟨⟨"item", 0, {}⟩, []⟩, ⟨⟨"separator", 1, {}⟩, []⟩]

/-- What `MenuItemInner` renders for an item without an `href` under
the default hook outputs. -/
def defaultItemRendered : MenuItemRendered :=
  ⟨"div", none, none, none, none, none, none, none,
    ⟨false, false, false, false, false, false, "none", "toggle"⟩⟩

/-- The output of the C1 witness render. -/
def c1Out : List Element :=
  [.menuContainer
    [.itemEl ⟨⟨"item", 0, {}⟩, defaultItemRendered⟩,
      .separatorEl]]

/-- A collection with a section (holding a header and an item) and a
top-level item, used by the C9 witness. -/
def c9Collection : List TopNode :=
  [⟨⟨"section", 0, {}⟩, [⟨"header", 1, {}⟩, ⟨"item", 2, {}⟩]⟩,
    ⟨⟨"item", 3, {}⟩, []⟩]

/-- The container element of the C9 witness render. -/
def c9Container : Element :=
  .menuContainer
    [.sectionEl [.headerEl 1,
      .itemEl ⟨⟨"item", 2, {}⟩, defaultItemRendered⟩],
      .itemEl ⟨⟨"item", 3, {}⟩, defaultItemRendered⟩]

/-- The output of the C9 witness render. -/
def c9Out : List Element :=
  [c9Container, .portalEl]

/-- An opaque tree state used by witnesses quantifying over the
state. -/
def wState : TreeState :=
  { collection := []
    selectionMode := "none"
    selectionBehavior := "toggle"
    itemStates := fun _ => {} }

/-- A tree state in single selection mode, for the C6 witness. -/
def wStateSingle : TreeState :=
  { collection := []
    selectionMode := "single"
    selectionBehavior := "replace"
    itemStates := fun _ => {} }

/-- A tree state whose items are all focused and selected, for the C8
witness. -/
def wFocusedState : TreeState :=
  { collection := []
    selectionMode := "multiple"
    selectionBehavior := "toggle"
    itemStates := fun _ => { isFocused := true, isSelected := true } }

/-! ## Helper lemmas -/

theorem useCachedChildren_length {α β : Type} {f : α → Except String β}
    {l : List α} {ys : List β} (h : useCachedChildren f l = Except.ok ys) :
    ys.length = l.length := by
  induction l generalizing ys with
  | nil =>
    rw [useCachedChildren] at h
    cases h
    rfl
  | cons x xs ih =>
    rw [useCachedChildren] at h
    split at h
    · cases h
    · split at h
      · cases h
      · rename_i heq
        cases h
        simp [ih heq]

theorem useCachedChildren_get {α β : Type} {f : α → Except String β}
    {l : List α} {ys : List β} (h : useCachedChildren f l = Except.ok ys) :
    ∀ i (h1 : i < l.length) (h2 : i < ys.length),
      f (l.get ⟨i, h1⟩) = Except.ok (ys.get ⟨i, h2⟩) := by
  induction l generalizing ys with
  | nil =>
    intro i h1
    exact absurd h1 (by simp)
  | cons x xs ih =>
    rw [useCachedChildren] at h
    split at h
    · cases h
    · split at h
      · cases h
      · rename_i y hfx scr ys2 hrec
        cases h
        intro i h1 h2
        match i with
        | 0 => exact hfx
        | i + 1 =>
          exact ih hrec i (by simpa using h1) (by simpa using h2)

theorem useCachedChildren_mem {α β : Type} {f : α → Except String β}
    {l : List α} {ys : List β} (h : useCachedChildren f l = Except.ok ys) :
    ∀ y ∈ ys, ∃ x ∈ l, f x = Except.ok y := by
  induction l generalizing ys with
  | nil =>
    rw [useCachedChildren] at h
    cases h
    intro y hy
    exact absurd hy (by simp)
  | cons x xs ih =>
    rw [useCachedChildren] at h
    split at h
    · cases h
    · split at h
      · cases h
      · rename_i z hz scr zs hrec
        cases h
        intro y hy
        rcases List.mem_cons.mp hy with hy | hy
        · exact ⟨x, List.mem_cons_self x xs, hy ▸ hz⟩
        · obtain ⟨x', hx', hfx'⟩ := ih hrec y hy
          exact ⟨x', List.mem_cons_of_mem x hx', hfx'⟩

theorem useCachedChildren_error {α β : Type} {f : α → Except String β}
    {l : List α} {e : String} (h : useCachedChildren f l = Except.error e) :
    ∃ x ∈ l, f x = Except.error e := by
  induction l with
  | nil =>
    rw [useCachedChildren] at h
    cases h
  | cons x xs ih =>
    rw [useCachedChildren] at h
    split at h
    · rename_i heq
      cases h
      exact ⟨x, List.mem_cons_self x xs, heq⟩
    · split at h
      · rename_i heq
        cases h
        obtain ⟨x', hx', hfx'⟩ := ih heq
        exact ⟨x', List.mem_cons_of_mem x hx', hfx'⟩
      · cases h

/-- Every error thrown while rendering a section's children carries the
`Section` message shape, built from some child's type. -/
theorem sectionChild_error_shape {st : TreeState} {fv : Nat → Bool}
    {n : Node} {e : String} (h : sectionChild st fv n = Except.error e) :
    e = "Unsupported element type in Section: " ++ n.type := by
  rw [sectionChild] at h
  split at h
  · cases h
  · split at h
    · cases h
    · cases h
      rfl

/-- `orUndefined` mirrors its flag: present iff true, never a literal
`false`. -/
theorem mirrors_orUndefined (b : Bool) : mirrors (orUndefined b) b := by
  cases b <;> simp [mirrors, orUndefined]

/-- The `Section` error message is never equal to the `Menu` error
message for a section node: the two literals differ at character 12. -/
theorem section_msg_ne_menu_msg (ct : String) :
    "Unsupported element type in Section: " ++ ct ≠
      "Unsupported node type in Menu: " ++ "section" := by
  intro h
  have hd := congrArg String.data h
  rw [String.data_append, String.data_append] at hd
  have h12 := congrArg (fun l => l[12]?) hd
  simp [List.getElem?_append] at h12

/-! ## Claim theorems -/

/-- A section child that renders successfully only ever realizes the
very node it was given as a menu item (headers realize no item). -/
theorem sectionChild_ok_nodes {st : TreeState} {fv : Nat → Bool}
    {x : Node} {sc : SectionChild}
    (h : sectionChild st fv x = Except.ok sc) :
    ∀ n ∈ sc.itemNodes, n = x := by
  rw [sectionChild] at h
  split at h
  · cases h
    intro n hn
    simp [SectionChild.itemNodes] at hn
  · split at h
    · cases h
      intro n hn
      simpa [SectionChild.itemNodes] using hn
    · cases h

/-- A top-level node that renders successfully only realizes menu items
for itself (when it is an item) or for the children of its section. -/
theorem menuInnerChild_ok_nodes {st : TreeState} {fv : Nat → Bool}
    {t : TopNode} {te : TopElement}
    (h : menuInnerChild st fv t = Except.ok te) :
    ∀ n ∈ te.itemNodes,
      n = t.node ∨ (t.node.type = "section" ∧ n ∈ t.children) := by
  rw [menuInnerChild] at h
  split at h
  · rename_i hsec
    rw [MenuSection] at h
    split at h
    · cases h
    · rename_i cs hcs
      cases h
      intro n hn
      simp only [TopElement.itemNodes, List.mem_flatMap] at hn
      obtain ⟨sc, hsc, hnsc⟩ := hn
      obtain ⟨x, hx, hfx⟩ := useCachedChildren_mem hcs sc hsc
      right
      refine ⟨by simpa using hsec, ?_⟩
      rw [sectionChild_ok_nodes hfx n hnsc]
      exact hx
  · split at h
    · cases h
      intro n hn
      simp [TopElement.itemNodes] at hn
    · split at h
      · cases h
        intro n hn
        left
        simpa [TopElement.itemNodes] using hn
      · cases h

/-- C1: for every realized collection with at least one top-level
node, a successful render produces exactly one menu container, holding
one rendering per top-level node, in the collection's order (the i-th
rendered child is the dispatch of the i-th node). -/
theorem menu_one_container_every_node_in_order (h : HookData)
    (portal : Bool) (c : List TopNode) (out : List Element)
    (hne : c ≠ []) (hok : Menu h portal c = Except.ok out) :
    ∃ kids : List TopElement,
      out = Element.menuContainer kids :: portalOut portal ∧
      out.countP (fun e => e.isContainer) = 1 ∧
      kids.length = c.length ∧
      ∀ i (h1 : i < c.length) (h2 : i < kids.length),
        menuInnerChild (useTreeState c h) h.focusVisible (c.get ⟨i, h1⟩) =
          Except.ok (kids.get ⟨i, h2⟩) := by
  rw [Menu, if_pos (by simpa using List.length_pos.mpr hne)] at hok
  split at hok
  · cases hok
  · rename_i m hm
    cases hok
    simp only [MenuInner, useTreeState] at hm
    split at hm
    · cases hm
    · rename_i tops htops
      cases hm
      refine ⟨tops, rfl, ?_, useCachedChildren_length htops, ?_⟩
      · cases portal <;>
          simp [portalOut, List.countP_cons, Element.isContainer]
      · intro i h1 h2
        exact useCachedChildren_get htops i h1 h2

/-- C1 witness: a two-node collection (an item and a separator) renders
one container with both nodes in order. -/
theorem menu_one_container_every_node_in_order_witness :
    ∃ kids : List TopElement,
      c1Out = Element.menuContainer kids :: portalOut false ∧
      c1Out.countP (fun e => e.isContainer) = 1 ∧
      kids.length = c1Collection.length ∧
      ∀ i (h1 : i < c1Collection.length) (h2 : i < kids.length),
        menuInnerChild (useTreeState c1Collection wHook) wHook.focusVisible
            (c1Collection.get ⟨i, h1⟩) =
          Except.ok (kids.get ⟨i, h2⟩) :=
  menu_one_container_every_node_in_order wHook false c1Collection c1Out
    (by decide) rfl

/-- C2: for a realized collection of size zero, the menu container is
not rendered at all: the output is exactly the portal placeholder (when
present), which is not interactive — it contains no container and no
menu items. -/
theorem menu_empty_renders_only_portal (h : HookData) (portal : Bool)
    (c : List TopNode) (hz : c.length = 0) :
    Menu h portal c = Except.ok (portalOut portal) ∧
    (∀ e ∈ portalOut portal, e = Element.portalEl) ∧
    (portalOut portal).countP (fun e => e.isContainer) = 0 ∧
    (∀ e ∈ portalOut portal, e.itemNodes = []) := by
  have hc : c = [] := List.length_eq_zero.mp hz
  subst hc
  refine ⟨rfl, ?_, ?_, ?_⟩
  · cases portal <;> simp [portalOut]
  · cases portal <;> simp [portalOut, Element.isContainer]
  · cases portal <;> simp [portalOut, Element.itemNodes]

/-- C2 witness: with an empty collection and a present portal, the
output is just the portal placeholder. -/
theorem menu_empty_renders_only_portal_witness :
    Menu wHook true [] = Except.ok (portalOut true) ∧
    (∀ e ∈ portalOut true, e = Element.portalEl) ∧
    (portalOut true).countP (fun e => e.isContainer) = 0 ∧
    (∀ e ∈ portalOut true, e.itemNodes = []) :=
  menu_empty_renders_only_portal wHook true [] rfl

/-- C9: in every successful render, `MenuItemInner` renderings occur
only for nodes of the realized collection — top-level nodes or children
of a top-level section (the lists the tree state exposes). -/
theorem menuItemInner_only_collection_nodes (h : HookData)
    (portal : Bool) (c : List TopNode) (out : List Element)
    (hok : Menu h portal c = Except.ok out) :
    ∀ e ∈ out, ∀ n ∈ e.itemNodes, inCollection c n := by
  rw [Menu] at hok
  split at hok
  · split at hok
    · cases hok
    · rename_i m hm
      cases hok
      simp only [MenuInner, useTreeState] at hm
      split at hm
      · cases hm
      · rename_i tops htops
        cases hm
        intro e he n hn
        rcases List.mem_cons.mp he with he | he
        · subst he
          simp only [Element.itemNodes, List.mem_flatMap] at hn
          obtain ⟨te, hte, hnte⟩ := hn
          obtain ⟨x, hx, hfx⟩ := useCachedChildren_mem htops te hte
          rcases menuInnerChild_ok_nodes hfx n hnte with hcase | hcase
          · exact Or.inl ⟨x, hx, hcase.symm⟩
          · exact Or.inr ⟨x, hx, hcase.1, hcase.2⟩
        · have : e = Element.portalEl := by
            cases portal
            · simp [portalOut] at he
            · simpa [portalOut] using he
          subst this
          simp [Element.itemNodes] at hn
  · cases hok
    intro e he n hn
    have : e = Element.portalEl := by
      cases portal
      · simp [portalOut] at he
      · simpa [portalOut] using he
    subst this
    simp [Element.itemNodes] at hn

/-- C9 witness: in a render of a section (header + item) and a
top-level item, the two realized menu item nodes are members of the
collection (one as a section child, one top-level). -/
theorem menuItemInner_only_collection_nodes_witness :
    inCollection c9Collection ⟨"item", 2, {}⟩ ∧
    inCollection c9Collection ⟨"item", 3, {}⟩ :=
  ⟨menuItemInner_only_collection_nodes wHook true c9Collection c9Out rfl
      c9Container (by decide) ⟨"item", 2, {}⟩ (by decide),
    menuItemInner_only_collection_nodes wHook true c9Collection c9Out rfl
      c9Container (by decide) ⟨"item", 3, {}⟩ (by decide)⟩

/-- C5: for every item node, the element `MenuItemInner` renders is an
anchor (`'a'`) exactly when the item's props include a link target (a
configured, non-empty `href` — the hrefs the source's truthiness test
accepts), and a generic container (`'div'`) otherwise. -/
theorem menuItemInner_anchor_iff_link_target (st : TreeState)
    (fv : Nat → Bool) (item : Node) :
    ((MenuItemInner st fv item).elementType = "a" ↔
      hasLinkTarget item.props) ∧
    (¬ hasLinkTarget item.props →
      (MenuItemInner st fv item).elementType = "div") := by
  have he : (MenuItemInner st fv item).elementType =
      if strTruthy item.props.href then "a" else "div" := rfl
  constructor
  · rw [he]
    cases hh : item.props.href with
    | none =>
      simp [strTruthy, hasLinkTarget, hh]
    | some s =>
      by_cases hs : s = ""
      · subst hs
        simp [strTruthy, hasLinkTarget, hh]
      · simp [strTruthy, hasLinkTarget, hh, hs]
  · intro hno
    rw [he]
    cases hh : item.props.href with
    | none => simp [strTruthy]
    | some s =>
      have hs : s = "" := by
        by_contra hs
        exact hno ⟨s, hh, hs⟩
      subst hs
      simp [strTruthy]

/-- C5 witness: with an `href` the rendered element is an anchor, and
without one it is a `div`. -/
theorem menuItemInner_anchor_iff_link_target_witness :
    (MenuItemInner wState (fun _ => false)
        ⟨"item", 0, ⟨some "https://x.test"⟩⟩).elementType = "a" ∧
    (MenuItemInner wState (fun _ => false) ⟨"item", 0, {}⟩).elementType =
      "div" :=
  ⟨(menuItemInner_anchor_iff_link_target wState (fun _ => false)
      ⟨"item", 0, ⟨some "https://x.test"⟩⟩).1.mpr
      ⟨"https://x.test", rfl, by decide⟩,
    (menuItemInner_anchor_iff_link_target wState (fun _ => false)
      ⟨"item", 0, {}⟩).2 (by decide)⟩

/-- C6: the `data-selection-mode` attribute is absent exactly when the
tree state's selection mode is `"none"`, and otherwise equals the
selection mode string. -/
theorem menuItemInner_selection_mode_attr (st : TreeState)
    (fv : Nat → Bool) (item : Node) :
    ((MenuItemInner st fv item).dataSelectionMode = none ↔
      st.selectionMode = "none") ∧
    (st.selectionMode ≠ "none" →
      (MenuItemInner st fv item).dataSelectionMode =
        some st.selectionMode) := by
  have he : (MenuItemInner st fv item).dataSelectionMode =
      if st.selectionMode == "none" then none
      else some st.selectionMode := rfl
  rw [he]
  by_cases hm : st.selectionMode = "none"
  · simp [hm]
  · simp [hm]

/-- C6 witness: in mode `"none"` the attribute is absent; in mode
`"single"` it carries the mode string. -/
theorem menuItemInner_selection_mode_attr_witness :
    (MenuItemInner wState (fun _ => false)
        ⟨"item", 0, {}⟩).dataSelectionMode = none ∧
    (MenuItemInner wStateSingle (fun _ => false)
        ⟨"item", 0, {}⟩).dataSelectionMode = some "single" :=
  ⟨(menuItemInner_selection_mode_attr wState (fun _ => false)
      ⟨"item", 0, {}⟩).1.mpr rfl,
    (menuItemInner_selection_mode_attr wStateSingle (fun _ => false)
      ⟨"item", 0, {}⟩).2 (by decide)⟩

/-- C7: the `isHovered` value passed to the render-prop callback and
the `data-hovered` attribute both equal the item's focused state
(`isFocused`) rather than an independent pointer-hover signal; in
particular `data-hovered` and `data-focused` always agree. -/
theorem menuItemInner_hovered_aliases_focused (st : TreeState)
    (fv : Nat → Bool) (item : Node) :
    (MenuItemInner st fv item).values.isHovered =
      (st.itemStates item.key).isFocused ∧
    (MenuItemInner st fv item).dataHovered =
      (MenuItemInner st fv item).dataFocused :=
  ⟨rfl, rfl⟩

/-- C8: each boolean data attribute set by `MenuItemInner` is present
exactly when the corresponding flag of the render-prop values is true,
and is entirely absent (never `false`) when that flag is false.  By C7
the flag behind `data-hovered` is the aliased `isHovered`, i.e. the
focused state. -/
theorem menuItemInner_data_attrs_mirror_flags (st : TreeState)
    (fv : Nat → Bool) (item : Node) :
    mirrors (MenuItemInner st fv item).dataDisabled
      (MenuItemInner st fv item).values.isDisabled ∧
    mirrors (MenuItemInner st fv item).dataHovered
      (MenuItemInner st fv item).values.isHovered ∧
    mirrors (MenuItemInner st fv item).dataFocused
      (MenuItemInner st fv item).values.isFocused ∧
    mirrors (MenuItemInner st fv item).dataFocusVisible
      (MenuItemInner st fv item).values.isFocusVisible ∧
    mirrors (MenuItemInner st fv item).dataPressed
      (MenuItemInner st fv item).values.isPressed ∧
    mirrors (MenuItemInner st fv item).dataSelected
      (MenuItemInner st fv item).values.isSelected :=
  ⟨mirrors_orUndefined _, mirrors_orUndefined _, mirrors_orUndefined _,
    mirrors_orUndefined _, mirrors_orUndefined _, mirrors_orUndefined _⟩

/-- C8 witness: for a focused, selected item the attributes
`data-hovered`, `data-focused`, `data-selected` are present and never
`some false`. -/
theorem menuItemInner_data_attrs_mirror_flags_witness :
    mirrors (MenuItemInner wFocusedState (fun _ => false)
        ⟨"item", 0, {}⟩).dataHovered
      (MenuItemInner wFocusedState (fun _ => false)
        ⟨"item", 0, {}⟩).values.isHovered :=
  (menuItemInner_data_attrs_mirror_flags wFocusedState (fun _ => false)
    ⟨"item", 0, {}⟩).2.1

/-- C4: a section child whose type is neither `header` nor `item`
makes the section renderer throw `'Unsupported element type in
Section: ' + type`; a `header` or `item` child renders without any
error. -/
theorem section_unsupported_child_throws (st : TreeState)
    (fv : Nat → Bool) (n : Node) :
    (n.type ∉ (["header", "item"] : List String) →
      sectionChild st fv n =
        Except.error ("Unsupported element type in Section: " ++ n.type)) ∧
    (n.type ∈ (["header", "item"] : List String) →
      ∃ e, sectionChild st fv n = Except.ok e) := by
  constructor
  · intro hnot
    simp only [List.mem_cons, List.not_mem_nil, or_false, not_or] at hnot
    obtain ⟨h1, h2⟩ := hnot
    rw [sectionChild, if_neg (by simpa using h1), if_neg (by simpa using h2)]
  · intro hmem
    simp only [List.mem_cons, List.not_mem_nil, or_false] at hmem
    rcases hmem with h1 | h2
    · exact ⟨.headerEl n.key, by rw [sectionChild, if_pos (by simpa using h1)]⟩
    · refine ⟨.itemEl ⟨n, MenuItemInner st fv n⟩, ?_⟩
      rw [sectionChild]
      by_cases hh : n.type = "header"
      · rw [h2] at hh
        exact absurd hh (by decide)
      · rw [if_neg (by simpa using hh), if_pos (by simpa using h2)]

/-- C4 witness: a `"loader"` child throws the Section message naming
`loader`; a `header` child and an `item` child render without error. -/
theorem section_unsupported_child_throws_witness :
    sectionChild wState (fun _ => false) ⟨"loader", 7, {}⟩ =
      Except.error "Unsupported element type in Section: loader" ∧
    (∃ e, sectionChild wState (fun _ => false) ⟨"header", 1, {}⟩ =
      Except.ok e) ∧
    (∃ e, sectionChild wState (fun _ => false) ⟨"item", 2, {}⟩ =
      Except.ok e) :=
  ⟨(section_unsupported_child_throws wState (fun _ => false)
      ⟨"loader", 7, {}⟩).1 (by decide),
    (section_unsupported_child_throws wState (fun _ => false)
      ⟨"header", 1, {}⟩).2 (by decide),
    (section_unsupported_child_throws wState (fun _ => false)
      ⟨"item", 2, {}⟩).2 (by decide)⟩

/-- C3: a top-level node whose type is none of `section`, `separator`,
`item` makes the menu body throw `'Unsupported node type in Menu: ' +
type`; for the three supported types that error is never raised (a
section with an invalid child throws the distinct Section message,
never the Menu one). -/
theorem menu_unsupported_node_throws (st : TreeState) (fv : Nat → Bool)
    (t : TopNode) :
    (t.node.type ∉ (["section", "separator", "item"] : List String) →
      menuInnerChild st fv t =
        Except.error ("Unsupported node type in Menu: " ++ t.node.type)) ∧
    (t.node.type ∈ (["section", "separator", "item"] : List String) →
      menuInnerChild st fv t ≠
        Except.error ("Unsupported node type in Menu: " ++ t.node.type)) := by
  constructor
  · intro hnot
    simp only [List.mem_cons, List.not_mem_nil, or_false, not_or] at hnot
    obtain ⟨h1, h2, h3⟩ := hnot
    rw [menuInnerChild, if_neg (by simpa using h1),
      if_neg (by simpa using h2), if_neg (by simpa using h3)]
  · intro hmem h
    simp only [List.mem_cons, List.not_mem_nil, or_false] at hmem
    rcases hmem with h1 | h2 | h3
    · rw [menuInnerChild, if_pos (by simpa using h1), h1] at h
      rw [MenuSection] at h
      split at h
      · rename_i e heq
        cases h
        obtain ⟨x, _, hfx⟩ := useCachedChildren_error heq
        exact section_msg_ne_menu_msg x.type
          (sectionChild_error_shape hfx).symm
      · cases h
    · rw [menuInnerChild, if_neg (by rw [h2]; decide),
        if_pos (by simpa using h2)] at h
      cases h
    · rw [menuInnerChild, if_neg (by rw [h3]; decide),
        if_neg (by rw [h3]; decide), if_pos (by simpa using h3)] at h
      cases h

/-- C3 witness: a `"loader"` top-level node throws the Menu message
naming `loader`; an `item` node does not raise it. -/
theorem menu_unsupported_node_throws_witness :
    menuInnerChild wState (fun _ => false) ⟨⟨"loader", 7, {}⟩, []⟩ =
      Except.error "Unsupported node type in Menu: loader" ∧
    menuInnerChild wState (fun _ => false) ⟨⟨"item", 2, {}⟩, []⟩ ≠
      Except.error "Unsupported node type in Menu: item" :=
  ⟨(menu_unsupported_node_throws wState (fun _ => false)
      ⟨⟨"loader", 7, {}⟩, []⟩).1 (by decide),
    (menu_unsupported_node_throws wState (fun _ => false)
      ⟨⟨"item", 2, {}⟩, []⟩).2 (by decide)⟩

/-- C10: after every resize event of the attached trigger element —
also at the end of any sequence of earlier resizes — the published
trigger-width value equals the trigger's current measured offset width
with a `px` suffix; no earlier width survives. -/
theorem trigger_width_tracks_last_resize (init : Option String)
    (events : List (Option Nat)) (w : Nat) :
    processResizes init (events ++ [some w]) =
      some (toString w ++ "px") := by
  simp [processResizes, List.foldl_append, onResize]

end ReactAriaMenu
